import Mathlib

/-!
# Weather CLI: a shallow embedding and its verified properties

The Go sources embedded here are

* `cmd/weather/main.go`      (`run`)
* `pkg/fetcher/fetcher.go`   (`Fetch`, `geocode`, `weatherCodeToCondition`)
* `pkg/display/display.go`   (`Print`)
* `pkg/weather/fetcher.go`   (`Fetcher.Fetch`, `parseResponse`, `parseInt`)

Go `int` is 64 bits wide and its values are mathematical integers (`Int`); the
program never does arithmetic on them beyond comparisons and `len(..)+12`.  Go
slices are lists, and an index expression `xs[i]` that is out of range is a
run-time panic.  Go strings are `String`s and `len(s)` is the UTF-8 byte length.
Library calls (`http.Get`, `client.Do`, JSON decoding, `url.QueryEscape`,
`url.PathEscape`, the `%f` verbs) are parameters of the model; `fmt.Sscanf` with
the verb `%d` is modelled after the scanner of the Go library, since `parseInt`
depends on which texts it accepts.
-/

namespace Gastown

/-- IEEE-754 binary64 value (Go `float64`), kept as its bit pattern: the program
only copies and formats such values, it never computes on them. -/
structure Float64 where
  bits : Nat
deriving DecidableEq, Repr

/-- Result of a Go call that either returns a value, returns a non-nil error, or
panics at run time (index out of range). -/
inductive Outcome (ε α : Type) where
  | value (a : α)
  | error (e : ε)
  | panic
deriving DecidableEq, Repr

/-- Observable effects of a run, in program order: a request object built
(`http.NewRequestWithContext`), a request sent (`http.Get`, `client.Do`), a
string written to the output writer. -/
inductive Event where
  | newRequest (url : String)
  | httpGet (url : String)
  | write (text : String)
deriving DecidableEq, Repr

/-- An HTTP response as the program reads it: the status code, and what
`json.NewDecoder(resp.Body).Decode` yields for the target type `β`
(`Except.error` carries the decoder's error text). -/
structure Response (β : Type) where
  StatusCode : Int
  Body : Except String β

namespace fetcher

/-- Struct `DayForecast` of `pkg/fetcher/fetcher.go`. -/
structure DayForecast where
  Date : String
  TempMax : Float64
  TempMin : Float64
  Condition : String
deriving DecidableEq, Repr

/-- Struct `Weather` of `pkg/fetcher/fetcher.go`. -/
structure Weather where
  Location : String
  Temperature : Float64
  Units : String
  Condition : String
  Humidity : Int
  WindSpeed : Float64
  Forecasts : List DayForecast
deriving DecidableEq, Repr

/-- One element of `geoResponse.Results`. -/
structure geoResult where
  Name : String
  Latitude : Float64
  Longitude : Float64
deriving DecidableEq, Repr

/-- Struct `geoResponse`: the decoded geocoding document. -/
structure geoResponse where
  Results : List geoResult
deriving DecidableEq, Repr

/-- The `current` object of `weatherResponse`. -/
structure currentFields where
  Temperature : Float64
  RelativeHumidity : Int
  WindSpeed : Float64
  WeatherCode : Int
deriving DecidableEq, Repr

/-- The `daily` object of `weatherResponse`: four parallel arrays. -/
structure dailyFields where
  Time : List String
  TempMax : List Float64
  TempMin : List Float64
  WeatherCode : List Int
deriving DecidableEq, Repr

/-- Struct `weatherResponse`: the decoded forecast document. -/
structure weatherResponse where
  Current : currentFields
  Daily : dailyFields
deriving DecidableEq, Repr

/-- Errors `Fetch` and `geocode` return; each constructor is one `fmt.Errorf`
call site (or a library error passed through unchanged). -/
inductive FetchError where
  /-- an error value returned by `http.Get` or by the JSON decoder -/
  | lib (msg : String)
  /-- message `"location not found"` -/
  | locationNotFound
  /-- message `"failed to find location %q: %w"` -/
  | findLocation (location : String) (cause : FetchError)
  /-- message `"failed to fetch weather: %w"` -/
  | fetchWeather (cause : FetchError)
  /-- message `"weather API returned status %d"` -/
  | weatherStatus (status : Int)
  /-- message `"failed to decode weather response: %w"` -/
  | decodeWeather (cause : FetchError)
deriving DecidableEq, Repr

/-- The library functions the primary client calls.  `getGeo` and `getWeather`
are `http.Get` on the geocoding and on the forecast endpoint, each followed by
the JSON decoding of the body into the type the caller asks for. -/
structure Lib where
  QueryEscape : String → String
  /-- the `%f` verb -/
  fmtF : Float64 → String
  getGeo : String → Except String (Response geoResponse)
  getWeather : String → Except String (Response weatherResponse)

/-- Function `weatherCodeToCondition`: the expressionless `switch`, first match wins. -/
def weatherCodeToCondition (code : Int) : String :=
  if code = 0 then "Clear sky"
  else if code ≤ 3 then "Partly cloudy"
  else if code ≤ 49 then "Foggy"
  else if code ≤ 59 then "Drizzle"
  else if code ≤ 69 then "Rain"
  else if code ≤ 79 then "Snow"
  else if code ≤ 84 then "Rain showers"
  else if code ≤ 86 then "Snow showers"
  else if code ≤ 99 then "Thunderstorm"
  else "Unknown"

/-- Function `geocode`: one GET on the geocoding endpoint, then the decoded body is
inspected.  The status code of the response is never read. -/
def geocode (L : Lib) (location : String) :
    List Event × Except FetchError (Float64 × Float64 × String) :=
  let geoURL :=
    "https://geocoding-api.open-meteo.com/v1/search?name=" ++ L.QueryEscape location ++ "&count=1"
  ([Event.httpGet geoURL],
    match L.getGeo geoURL with
    | .error err => .error (.lib err)
    | .ok resp =>
      match resp.Body with
      | .error err => .error (.lib err)
      | .ok gr =>
        match gr.Results with
        | [] => .error .locationNotFound
        | r :: _ => .ok (r.Latitude, r.Longitude, r.Name))

/-- The `for i := 0; i < len(wr.Daily.Time) && i < days; i++` loop of `Fetch`,
started at index `i` with the forecasts appended so far.  `none` is the run-time
panic of an index expression that is out of range. -/
def forecastLoop (wr : weatherResponse) (days : Int) (i : Nat) (acc : List DayForecast) :
    Option (List DayForecast) :=
  if i < wr.Daily.Time.length ∧ (i : Int) < days then
    match wr.Daily.Time[i]?, wr.Daily.TempMax[i]?, wr.Daily.TempMin[i]?,
        wr.Daily.WeatherCode[i]? with
    | some date, some hi, some lo, some code =>
      forecastLoop wr days (i + 1)
        (acc ++ [{ Date := date, TempMax := hi, TempMin := lo,
                   Condition := weatherCodeToCondition code }])
    | _, _, _, _ => none
  else some acc
termination_by wr.Daily.Time.length - i
decreasing_by omega

/-- The forecast request URL that `Fetch` builds with `fmt.Sprintf`. -/
def apiURL (L : Lib) (lat lon : Float64) (tempUnit windUnit : String) (days : Int) : String :=
  "https://api.open-meteo.com/v1/forecast?latitude=" ++ L.fmtF lat ++ "&longitude=" ++ L.fmtF lon
    ++ "&current=temperature_2m,relative_humidity_2m,wind_speed_10m,weather_code"
    ++ "&daily=temperature_2m_max,temperature_2m_min,weather_code"
    ++ "&temperature_unit=" ++ tempUnit ++ "&wind_speed_unit=" ++ windUnit
    ++ "&forecast_days=" ++ toString days

/-- Function `Fetch`: geocode, one GET on the forecast endpoint, status check, decode,
build the result. -/
def Fetch (L : Lib) (location : String) (days : Int) (units : String) :
    List Event × Outcome FetchError Weather :=
  match geocode L location with
  | (t, .error err) => (t, .error (.findLocation location err))
  | (t, .ok (lat, lon, resolvedName)) =>
    let tempUnit := if units = "imperial" then "fahrenheit" else "celsius"
    let windUnit := if units = "imperial" then "mph" else "kmh"
    let url := apiURL L lat lon tempUnit windUnit days
    (t ++ [Event.httpGet url],
      match L.getWeather url with
      | .error err => .error (.fetchWeather (.lib err))
      | .ok resp =>
        if resp.StatusCode ≠ 200 then .error (.weatherStatus resp.StatusCode)
        else
          match resp.Body with
          | .error err => .error (.decodeWeather (.lib err))
          | .ok wr =>
            match forecastLoop wr days 0 [] with
            | none => .panic
            | some forecasts =>
              .value
                { Location := resolvedName
                  Temperature := wr.Current.Temperature
                  Units := units
                  Condition := weatherCodeToCondition wr.Current.WeatherCode
                  Humidity := wr.Current.RelativeHumidity
                  WindSpeed := wr.Current.WindSpeed
                  Forecasts := forecasts })

end fetcher

namespace display

/-- Function `Print`: the strings written to `w`, one per `fmt.Fprintf` call, in
order.  `fmtF1` is the `%.1f` verb; `len(weather.Location)` is the byte length
of the string. -/
def Print (fmtF1 : Float64 → String) (weather : fetcher.Weather) : List String :=
  let tempSymbol := if weather.Units = "imperial" then "F" else "C"
  let windUnit := if weather.Units = "imperial" then "mph" else "km/h"
  [ "\n",
    "Weather for " ++ weather.Location ++ "\n",
    String.mk (List.replicate (weather.Location.utf8ByteSize + 12) '-') ++ "\n",
    "\n",
    "Current Conditions:\n",
    "  Temperature: " ++ fmtF1 weather.Temperature ++ "°" ++ tempSymbol ++ "\n",
    "  Condition:   " ++ weather.Condition ++ "\n",
    "  Humidity:    " ++ toString weather.Humidity ++ "%\n",
    "  Wind:        " ++ fmtF1 weather.WindSpeed ++ " " ++ windUnit ++ "\n" ]
  ++ (if weather.Forecasts.length > 0 then
        "\nForecast:\n" ::
          weather.Forecasts.map (fun f =>
            "  " ++ f.Date ++ ": " ++ fmtF1 f.TempMax ++ "°" ++ tempSymbol ++ " / "
              ++ fmtF1 f.TempMin ++ "°" ++ tempSymbol ++ " - " ++ f.Condition ++ "\n")
      else [])
  ++ [ "\n" ]

end display

namespace main

/-- Errors `run` returns. -/
inductive RunError where
  /-- message `"days must be between 1 and 3"` -/
  | daysRange
  /-- message `"units must be metric or imperial"` (quoted in the source) -/
  | unitsInvalid
  /-- message `"failed to get weather: %w"` -/
  | getWeather (cause : fetcher.FetchError)
deriving DecidableEq, Repr

/-- Function `run` of `cmd/weather/main.go`; the flag variables `location`,
`days`, `units` are arguments, standard output is the event trace. -/
def run (L : fetcher.Lib) (fmtF1 : Float64 → String) (location : String) (days : Int)
    (units : String) : List Event × Outcome RunError Unit :=
  if days < 1 ∨ days > 3 then ([], .error .daysRange)
  else if units ≠ "metric" ∧ units ≠ "imperial" then ([], .error .unitsInvalid)
  else
    match fetcher.Fetch L location days units with
    | (t, .error err) => (t, .error (.getWeather err))
    | (t, .panic) => (t, .panic)
    | (t, .value weather) => (t ++ (display.Print fmtF1 weather).map Event.write, .value ())

end main

namespace fmt

/-- Go `fmt.isSpace`: the fixed table of white-space code points of `fmt/scan.go`. -/
def isSpace (r : Char) : Bool :=
  let n := r.toNat
  (0x0009 ≤ n && n ≤ 0x000d) || n == 0x0020 || n == 0x0085 || n == 0x00a0 || n == 0x1680
    || (0x2000 ≤ n && n ≤ 0x200a) || (0x2028 ≤ n && n ≤ 0x2029) || n == 0x202f
    || n == 0x205f || n == 0x3000

/-- Go `(*ss).SkipSpace` in the `Sscanf` mode (a newline is not white space):
the input left after the leading white space, `none` for the
`"unexpected newline"` error. -/
def SkipSpace : List Char → Option (List Char)
  | [] => some []
  | c :: rest =>
    if c = '\n' then none
    else if isSpace c then SkipSpace rest
    else some (c :: rest)

/-- The digit set `"0123456789"` that `getBase` gives `scanNumber` for the verb
`%d`. -/
def isDecimalDigit (c : Char) : Bool :=
  '0' ≤ c && c ≤ '9'

/-- Go `strconv.ParseUint(s, 10, 64)` on the characters of `s`, continuing from
the value `n` read so far: `none` for a syntax error (a character that is not a
decimal digit) or a value that does not fit 64 bits. -/
def parseUintFrom : Nat → List Char → Option Nat
  | n, [] => some n
  | n, c :: rest =>
    if '0' ≤ c ∧ c ≤ '9' then
      let n1 := n * 10 + (c.toNat - '0'.toNat)
      if n1 < 2 ^ 64 then parseUintFrom n1 rest else none
    else none

/-- Go `strconv.ParseUint(s, 10, 64)`: the empty string is a syntax error. -/
def ParseUint (s : List Char) : Option Nat :=
  if s = [] then none else parseUintFrom 0 s

/-- Go `strconv.ParseInt(s, 10, 64)`: an optional sign, then `ParseUint`, then the
range check against `2^63`. -/
def ParseInt (s : List Char) : Option Int :=
  match s with
  | [] => none
  | '+' :: rest => (ParseUint rest).bind fun un => if un ≥ 2 ^ 63 then none else some (un : Int)
  | '-' :: rest => (ParseUint rest).bind fun un => if un > 2 ^ 63 then none else some (-(un : Int))
  | _ => (ParseUint s).bind fun un => if un ≥ 2 ^ 63 then none else some (un : Int)

/-- Go `(*ss).scanInt('d', 64)`: skip white space, fail at the end of input, accept
one sign, accept a non-empty run of decimal digits, convert the token with
`ParseInt`.  What follows the token is left unread. -/
def scanInt (input : List Char) : Option Int :=
  match SkipSpace input with
  | none => none
  | some [] => none
  | some (c :: rest) =>
    let sign := if c = '+' ∨ c = '-' then [c] else []
    let afterSign := if c = '+' ∨ c = '-' then rest else c :: rest
    let digits := afterSign.takeWhile isDecimalDigit
    if digits = [] then none else ParseInt (sign ++ digits)

/-- Go `fmt.Sscanf(s, "%d", &v)`: `some x` when the scan stores `x` into `v`,
`none` when it returns an error and leaves `v` as it was. -/
def SscanfInt (s : String) : Option Int :=
  match SkipSpace s.data with
  | none => none
  | some rest => scanInt rest

/-- The text starts with an integer numeral: white space without a newline, an
optional sign, a non-empty run of decimal digits, then anything.  Every text
that `Sscanf` with `%d` scans has this shape (`SscanfInt_some`). -/
def startsWithInteger (s : String) : Prop :=
  ∃ ws sign digits rest : List Char,
    s.data = ws ++ sign ++ digits ++ rest ∧
    (∀ c ∈ ws, isSpace c = true ∧ c ≠ '\n') ∧
    (sign = [] ∨ sign = ['+'] ∨ sign = ['-']) ∧
    digits ≠ [] ∧ ∀ c ∈ digits, '0' ≤ c ∧ c ≤ '9'

end fmt

namespace weather

/-- Struct `Weather` of `pkg/weather/fetcher.go`. -/
structure Weather where
  Location : String
  TempC : Int
  TempF : Int
  Conditions : String
  Humidity : Int
  WindKmph : Int
  WindMph : Int
  WindDir : String
deriving DecidableEq, Repr

/-- Struct `weatherDesc`. -/
structure weatherDesc where
  Value : String
deriving DecidableEq, Repr

/-- Struct `areaName`. -/
structure areaName where
  Value : String
deriving DecidableEq, Repr

/-- Struct `nearestArea`. -/
structure nearestArea where
  AreaName : List areaName
deriving DecidableEq, Repr

/-- Struct `currentCondition`: the numeric fields arrive as strings. -/
structure currentCondition where
  TempC : String
  TempF : String
  Humidity : String
  WindspeedKmph : String
  WindspeedMiles : String
  WindDir16Point : String
  WeatherDesc : List weatherDesc
deriving DecidableEq, Repr

/-- Struct `wttrResponse`: the decoded document of the alternate provider. -/
structure wttrResponse where
  CurrentCondition : List currentCondition
  NearestArea : List nearestArea
deriving DecidableEq, Repr

/-- Errors of the alternate client, one constructor per `fmt.Errorf` call site. -/
inductive Error where
  /-- message `"location cannot be empty"` -/
  | emptyLocation
  /-- message `"creating request: %w"` -/
  | creatingRequest (cause : String)
  /-- message `"fetching weather: %w"` -/
  | fetchingWeather (cause : String)
  /-- message `"unexpected status code: %d"` -/
  | unexpectedStatus (status : Int)
  /-- message `"decoding response: %w"` -/
  | decodingResponse (cause : String)
  /-- message `"no current conditions in response"` -/
  | noCurrentConditions
deriving DecidableEq, Repr

/-- A `context.Context` as the client hands it to the library. -/
structure Context where
  isNil : Bool
  done : Bool
deriving DecidableEq, Repr

/-- Struct `Fetcher`: the base URL and the HTTP client.  `NewRequest` is
`http.NewRequestWithContext(ctx, GET, url, nil)`, `Do` is `f.client.Do` followed
by the JSON decoding of the body, `PathEscape` is `url.PathEscape`. -/
structure Fetcher where
  baseURL : String
  PathEscape : String → String
  NewRequest : Context → String → Except String Unit
  Do : Context → String → Except String (Response wttrResponse)

/-- Function `parseInt`: `v` starts at zero and keeps that value when `Sscanf`
fails; the error `Sscanf` returns is dropped. -/
def parseInt (s : String) : Int :=
  match fmt.SscanfInt s with
  | some v => v
  | none => 0

/-- Function `parseResponse`. -/
def parseResponse (resp : wttrResponse) (fallbackLocation : String) : Except Error Weather :=
  match resp.CurrentCondition with
  | [] => .error .noCurrentConditions
  | cc :: _ =>
    let location :=
      match resp.NearestArea with
      | [] => fallbackLocation
      | area :: _ =>
        match area.AreaName with
        | [] => fallbackLocation
        | name :: _ => name.Value
    let conditions :=
      match cc.WeatherDesc with
      | [] => ""
      | d :: _ => d.Value
    .ok
      { Location := location
        TempC := parseInt cc.TempC
        TempF := parseInt cc.TempF
        Conditions := conditions
        Humidity := parseInt cc.Humidity
        WindKmph := parseInt cc.WindspeedKmph
        WindMph := parseInt cc.WindspeedMiles
        WindDir := cc.WindDir16Point }

/-- Method `(*Fetcher).Fetch`. -/
def Fetcher.Fetch (f : Fetcher) (ctx : Context) (location : String) :
    List Event × Except Error Weather :=
  if location = "" then ([], .error .emptyLocation)
  else
    let reqURL := f.baseURL ++ "/" ++ f.PathEscape location ++ "?format=j1"
    match f.NewRequest ctx reqURL with
    | .error err => ([Event.newRequest reqURL], .error (.creatingRequest err))
    | .ok () =>
      ([Event.newRequest reqURL, Event.httpGet reqURL],
        match f.Do ctx reqURL with
        | .error err => .error (.fetchingWeather err)
        | .ok resp =>
          if resp.StatusCode ≠ 200 then .error (.unexpectedStatus resp.StatusCode)
          else
            match resp.Body with
            | .error err => .error (.decodingResponse err)
            | .ok wttrResp => parseResponse wttrResp location)

/-- The ordinary reading of "the string parses as an integer", written from the
words of the specification and not from the scanner: the whole text is an
optional sign followed by one or more decimal digits. -/
def parsesAsInteger (s : String) : Bool :=
  match s.data with
  | [] => false
  | c :: rest =>
    if c = '+' ∨ c = '-' then !rest.isEmpty && rest.all fmt.isDecimalDigit
    else (c :: rest).all fmt.isDecimalDigit

end weather

/-! ## Concrete inputs used by the closed statements -/

namespace examples

/-- A geocoding document with one result. -/
def parisGeo : fetcher.geoResponse :=
  { Results := [{ Name := "Paris", Latitude := ⟨48⟩, Longitude := ⟨2⟩ }] }

/-- A forecast document with five daily entries, all four arrays of length 5. -/
def fiveDays : fetcher.weatherResponse :=
  { Current := { Temperature := ⟨20⟩, RelativeHumidity := 50, WindSpeed := ⟨10⟩, WeatherCode := 0 }
    Daily :=
      { Time := ["2024-01-01", "2024-01-02", "2024-01-03", "2024-01-04", "2024-01-05"]
        TempMax := [⟨11⟩, ⟨12⟩, ⟨13⟩, ⟨14⟩, ⟨15⟩]
        TempMin := [⟨1⟩, ⟨2⟩, ⟨3⟩, ⟨4⟩, ⟨5⟩]
        WeatherCode := [0, 3, 45, 61, 95] } }

/-- A forecast document whose time array (3 entries) is longer than its max-temp
array (2 entries). -/
def shortMax : fetcher.weatherResponse :=
  { Current := { Temperature := ⟨20⟩, RelativeHumidity := 50, WindSpeed := ⟨10⟩, WeatherCode := 0 }
    Daily :=
      { Time := ["2024-01-01", "2024-01-02", "2024-01-03"]
        TempMax := [⟨11⟩, ⟨12⟩]
        TempMin := [⟨1⟩, ⟨2⟩, ⟨3⟩]
        WeatherCode := [0, 3, 45] } }

/-- Both endpoints answer 200; the forecast body is `fiveDays`. -/
def libOK : fetcher.Lib :=
  { QueryEscape := fun q => q
    fmtF := fun _ => "0.000000"
    getGeo := fun _ => .ok { StatusCode := 200, Body := .ok parisGeo }
    getWeather := fun _ => .ok { StatusCode := 200, Body := .ok fiveDays } }

/-- Both endpoints answer 200; the forecast body is `shortMax`. -/
def libShortMax : fetcher.Lib :=
  { QueryEscape := fun q => q
    fmtF := fun _ => "0.000000"
    getGeo := fun _ => .ok { StatusCode := 200, Body := .ok parisGeo }
    getWeather := fun _ => .ok { StatusCode := 200, Body := .ok shortMax } }

/-- The geocoding endpoint answers 503 with a JSON error document, which decodes
to a `geoResponse` without results. -/
def libGeo503 : fetcher.Lib :=
  { QueryEscape := fun q => q
    fmtF := fun _ => "0.000000"
    getGeo := fun _ => .ok { StatusCode := 503, Body := .ok { Results := [] } }
    getWeather := fun _ => .ok { StatusCode := 200, Body := .ok fiveDays } }

/-- The geocoding endpoint answers 500 with a body that still decodes to one
result. -/
def libGeo500 : fetcher.Lib :=
  { QueryEscape := fun q => q
    fmtF := fun _ => "0.000000"
    getGeo := fun _ => .ok { StatusCode := 500, Body := .ok parisGeo }
    getWeather := fun _ => .ok { StatusCode := 200, Body := .ok fiveDays } }

/-- A response of the alternate provider with one current-conditions element and a
resolved area name. -/
def wttrParis : weather.wttrResponse :=
  { CurrentCondition :=
      [{ TempC := "20", TempF := "68", Humidity := "40", WindspeedKmph := "10",
         WindspeedMiles := "6", WindDir16Point := "N", WeatherDesc := [{ Value := "Sunny" }] }]
    NearestArea := [{ AreaName := [{ Value := "Paris" }] }] }

/-- A weather result for Paris without forecasts. -/
def parisWeather : fetcher.Weather :=
  { Location := "Paris", Temperature := ⟨20⟩, Units := "metric", Condition := "Clear sky",
    Humidity := 50, WindSpeed := ⟨10⟩, Forecasts := [] }

end examples

/-! ## Theorems -/

namespace fmt

/-- What `SkipSpace` consumes is a run of white space without a newline. -/
theorem SkipSpace_some (input : List Char) :
    ∀ rest, SkipSpace input = some rest →
      ∃ ws, input = ws ++ rest ∧ ∀ c ∈ ws, isSpace c = true ∧ c ≠ '\n' := by
  induction input with
  | nil =>
    intro rest h
    simp [SkipSpace] at h
    exact ⟨[], by simp [h], by simp⟩
  | cons c cs ih =>
    intro rest h
    unfold SkipSpace at h
    by_cases hnl : c = '\n'
    · rw [if_pos hnl] at h
      exact absurd h (by simp)
    · rw [if_neg hnl] at h
      by_cases hsp : isSpace c = true
      · rw [if_pos hsp] at h
        obtain ⟨ws, hws, hall⟩ := ih rest h
        refine ⟨c :: ws, by simp [hws], ?_⟩
        intro d hd
        rcases List.mem_cons.1 hd with hd | hd
        · subst hd; exact ⟨hsp, hnl⟩
        · exact hall d hd
      · rw [if_neg hsp] at h
        injection h with h
        exact ⟨[], by simp [h], by simp⟩

/-- A successful `parseUintFrom` has read decimal digits only. -/
theorem parseUintFrom_some (l : List Char) :
    ∀ n v, parseUintFrom n l = some v → ∀ c ∈ l, '0' ≤ c ∧ c ≤ '9' := by
  induction l with
  | nil => intro n v _ c hc; simp at hc
  | cons d ds ih =>
    intro n v h c hc
    unfold parseUintFrom at h
    by_cases hd : '0' ≤ d ∧ d ≤ '9'
    · rw [if_pos hd] at h
      by_cases hr : n * 10 + (d.toNat - '0'.toNat) < 2 ^ 64
      · simp only [hr, if_true] at h
        rcases List.mem_cons.1 hc with hc | hc
        · subst hc; exact hd
        · exact ih _ v h c hc
      · simp only [hr, if_false] at h
        exact absurd h (by simp)
    · rw [if_neg hd] at h
      exact absurd h (by simp)

/-- A successful `ParseUint` has read a non-empty run of decimal digits. -/
theorem ParseUint_some (l : List Char) (v : Nat) (h : ParseUint l = some v) :
    l ≠ [] ∧ ∀ c ∈ l, '0' ≤ c ∧ c ≤ '9' := by
  unfold ParseUint at h
  by_cases hl : l = []
  · rw [if_pos hl] at h; exact absurd h (by simp)
  · rw [if_neg hl] at h
    exact ⟨hl, parseUintFrom_some l 0 v h⟩

/-- A successful `ParseInt` has read an optional sign and a non-empty run of
decimal digits. -/
theorem ParseInt_some (l : List Char) (v : Int) (h : ParseInt l = some v) :
    ∃ sign digits, l = sign ++ digits ∧ (sign = [] ∨ sign = ['+'] ∨ sign = ['-']) ∧
      digits ≠ [] ∧ ∀ c ∈ digits, '0' ≤ c ∧ c ≤ '9' := by
  unfold ParseInt at h
  split at h
  · exact absurd h (by simp)
  · rename_i rest
    cases hu : ParseUint rest with
    | none => rw [hu] at h; exact absurd h (by simp)
    | some un =>
      obtain ⟨h1, h2⟩ := ParseUint_some rest un hu
      exact ⟨['+'], rest, rfl, Or.inr (Or.inl rfl), h1, h2⟩
  · rename_i rest
    cases hu : ParseUint rest with
    | none => rw [hu] at h; exact absurd h (by simp)
    | some un =>
      obtain ⟨h1, h2⟩ := ParseUint_some rest un hu
      exact ⟨['-'], rest, rfl, Or.inr (Or.inr rfl), h1, h2⟩
  · cases hu : ParseUint l with
    | none => rw [hu] at h; exact absurd h (by simp)
    | some un =>
      obtain ⟨h1, h2⟩ := ParseUint_some l un hu
      exact ⟨[], l, rfl, Or.inl rfl, h1, h2⟩


/-- A successful `scanInt` has found, after white space, an optional sign and a
non-empty run of decimal digits at the start of its input. -/
theorem scanInt_some (input : List Char) (v : Int) (h : scanInt input = some v) :
    ∃ ws sign digits rest : List Char,
      input = ws ++ sign ++ digits ++ rest ∧
      (∀ c ∈ ws, isSpace c = true ∧ c ≠ '\n') ∧
      (sign = [] ∨ sign = ['+'] ∨ sign = ['-']) ∧
      digits ≠ [] ∧ ∀ c ∈ digits, '0' ≤ c ∧ c ≤ '9' := by
  unfold scanInt at h
  cases hs : SkipSpace input with
  | none => rw [hs] at h; exact absurd h (by simp)
  | some r =>
    rw [hs] at h
    obtain ⟨ws, hws, hall⟩ := SkipSpace_some input r hs
    cases r with
    | nil => exact absurd h (by simp)
    | cons c rest =>
      simp only at h
      by_cases hd : List.takeWhile isDecimalDigit
          (if c = '+' ∨ c = '-' then rest else c :: rest) = []
      · rw [if_pos hd] at h; exact absurd h (by simp)
      · rw [if_neg hd] at h
        obtain ⟨sgn, ds, hsd, hsgn, hne, hdig⟩ := ParseInt_some _ v h
        refine ⟨ws, sgn, ds,
          List.dropWhile isDecimalDigit
            (if c = '+' ∨ c = '-' then rest else c :: rest), ?_, hall, hsgn, hne, hdig⟩
        have hsplit : c :: rest =
            ((if c = '+' ∨ c = '-' then [c] else []) ++
              List.takeWhile isDecimalDigit
                (if c = '+' ∨ c = '-' then rest else c :: rest)) ++
              List.dropWhile isDecimalDigit
                (if c = '+' ∨ c = '-' then rest else c :: rest) := by
          rw [List.append_assoc, List.takeWhile_append_dropWhile]
          by_cases hc : c = '+' ∨ c = '-'
          · rw [if_pos hc, if_pos hc]; rfl
          · rw [if_neg hc, if_neg hc]; rfl
        have hrest : c :: rest = (sgn ++ ds) ++
            List.dropWhile isDecimalDigit
              (if c = '+' ∨ c = '-' then rest else c :: rest) :=
          hsplit.trans (by rw [hsd])
        rw [hws]
        exact (congrArg (fun l => ws ++ l) hrest).trans (by simp [List.append_assoc])

/-- Whenever `Sscanf` with `%d` stores a value, the text starts with an integer
numeral. -/
theorem SscanfInt_some (s : String) (v : Int) (h : SscanfInt s = some v) :
    startsWithInteger s := by
  unfold SscanfInt at h
  cases hs : SkipSpace s.data with
  | none => rw [hs] at h; exact absurd h (by simp)
  | some r =>
    rw [hs] at h
    obtain ⟨ws1, hws1, hall1⟩ := SkipSpace_some s.data r hs
    obtain ⟨ws2, sgn, ds, rest, hr, hall2, hsgn, hne, hdig⟩ := scanInt_some r v h
    refine ⟨ws1 ++ ws2, sgn, ds, rest, ?_, ?_, hsgn, hne, hdig⟩
    · rw [hws1, hr]; simp [List.append_assoc]
    · intro c hc
      rcases List.mem_append.1 hc with hc | hc
      · exact hall1 c hc
      · exact hall2 c hc

/-- A text that does not start with an integer numeral does not scan. -/
theorem SscanfInt_none_of_not_startsWithInteger (s : String) (h : ¬ startsWithInteger s) :
    SscanfInt s = none := by
  cases hs : SscanfInt s with
  | none => rfl
  | some v => exact absurd (SscanfInt_some s v hs) h

/-- A text whose first character is neither white space, nor a sign, nor a decimal
digit does not start with an integer numeral. -/
theorem not_startsWithInteger_of_head (s : String) (c : Char) (cs : List Char)
    (hs : s.data = c :: cs) (hsp : isSpace c = false) (hplus : c ≠ '+') (hminus : c ≠ '-')
    (hdig : ¬ ('0' ≤ c ∧ c ≤ '9')) : ¬ startsWithInteger s := by
  rintro ⟨ws, sign, digits, rest, hdata, hws, hsign, hne, hd⟩
  rw [hs] at hdata
  cases ws with
  | cons w ws1 =>
    have hw : c = w := by
      simp only [List.cons_append] at hdata
      exact (List.cons.inj hdata).1
    have hwsp := (hws w (List.mem_cons_self _ _)).1
    rw [← hw, hsp] at hwsp
    exact absurd hwsp (by decide)
  | nil =>
    rcases hsign with h | h | h
    · subst h
      cases digits with
      | nil => exact hne rfl
      | cons d ds =>
        have hcd : c = d := by
          simp only [List.nil_append, List.cons_append] at hdata
          exact (List.cons.inj hdata).1
        have hdd := hd d (List.mem_cons_self _ _)
        rw [← hcd] at hdd
        exact hdig hdd
    · subst h
      have hc : c = '+' := by
        simp only [List.nil_append, List.cons_append] at hdata
        exact (List.cons.inj hdata).1
      exact hplus hc
    · subst h
      have hc : c = '-' := by
        simp only [List.nil_append, List.cons_append] at hdata
        exact (List.cons.inj hdata).1
      exact hminus hc

/-- The empty text does not start with an integer numeral. -/
theorem not_startsWithInteger_empty (s : String) (hs : s.data = []) : ¬ startsWithInteger s := by
  rintro ⟨ws, sign, digits, rest, hdata, -, -, hne, -⟩
  rw [hs] at hdata
  have h1 : ws ++ sign ++ digits = [] := (List.append_eq_nil.1 hdata.symm).1
  exact hne (List.append_eq_nil.1 h1).2

/-- The scan reads a leading integer and leaves what follows unread; a text
without a leading integer and a value beyond 64 bits are errors. -/
theorem SscanfInt_examples :
    SscanfInt "12abc" = some 12 ∧ SscanfInt "3.5" = some 3 ∧ SscanfInt "  -7" = some (-7) ∧
    SscanfInt "" = none ∧ SscanfInt "abc" = none ∧ SscanfInt "N/A" = none ∧
    SscanfInt "9223372036854775808" = none ∧
    SscanfInt "-9223372036854775808" = some (-9223372036854775808) := by
  refine ⟨by decide, by decide, by decide, by decide, by decide, by decide, ?_, ?_⟩
  · decide
  · decide

end fmt

namespace fetcher

/-- One unfolding of the loop when the loop condition holds and the four index
expressions are in range. -/
theorem forecastLoop_step (wr : weatherResponse) (days : Int) (i : Nat) (acc : List DayForecast)
    (date : String) (hi lo : Float64) (code : Int)
    (hlen : i < wr.Daily.Time.length) (hdays : (i : Int) < days)
    (h1 : wr.Daily.Time[i]? = some date) (h2 : wr.Daily.TempMax[i]? = some hi)
    (h3 : wr.Daily.TempMin[i]? = some lo) (h4 : wr.Daily.WeatherCode[i]? = some code) :
    forecastLoop wr days i acc =
      forecastLoop wr days (i + 1)
        (acc ++ [{ Date := date, TempMax := hi, TempMin := lo,
                   Condition := weatherCodeToCondition code }]) := by
  rw [forecastLoop, if_pos ⟨hlen, hdays⟩, h1, h2, h3, h4]

/-- The loop stops with the forecasts built so far as soon as the loop condition
fails. -/
theorem forecastLoop_stop (wr : weatherResponse) (days : Int) (i : Nat) (acc : List DayForecast)
    (h : ¬ (i < wr.Daily.Time.length ∧ (i : Int) < days)) :
    forecastLoop wr days i acc = some acc := by
  rw [forecastLoop, if_neg h]

/-- The loop panics when the loop condition holds and one of the three other
arrays has no element at the index. -/
theorem forecastLoop_panic (wr : weatherResponse) (days : Int) (i : Nat) (acc : List DayForecast)
    (hlen : i < wr.Daily.Time.length) (hdays : (i : Int) < days)
    (hbad : wr.Daily.TempMax.length ≤ i ∨ wr.Daily.TempMin.length ≤ i ∨
      wr.Daily.WeatherCode.length ≤ i) :
    forecastLoop wr days i acc = none := by
  rw [forecastLoop, if_pos ⟨hlen, hdays⟩]
  rcases hbad with h | h | h
  · rw [List.getElem?_eq_none h]
    cases wr.Daily.Time[i]? <;> rfl
  · rw [List.getElem?_eq_none h]
    cases wr.Daily.Time[i]? <;> cases wr.Daily.TempMax[i]? <;> rfl
  · rw [List.getElem?_eq_none h]
    cases wr.Daily.Time[i]? <;> cases wr.Daily.TempMax[i]? <;> cases wr.Daily.TempMin[i]? <;> rfl

/-- Loop invariant, success: when the three other arrays reach up to
`m = min(len(time), days)`, the loop started at `i ≤ m` with `i` forecasts built
returns `m` forecasts, keeps the ones already built and fills the others from the
arrays, index by index. -/
theorem forecastLoop_ok (wr : weatherResponse) (days : Int) (m : Nat)
    (hm : m = min wr.Daily.Time.length days.toNat)
    (hA : m ≤ wr.Daily.TempMax.length) (hB : m ≤ wr.Daily.TempMin.length)
    (hC : m ≤ wr.Daily.WeatherCode.length) :
    ∀ (k i : Nat) (acc : List DayForecast), k = m - i → i ≤ m → acc.length = i →
      ∃ fs, forecastLoop wr days i acc = some fs ∧ fs.length = m ∧
        (∀ j, j < i → fs[j]? = acc[j]?) ∧
        (∀ j, i ≤ j → j < m → ∃ date hi lo code,
          wr.Daily.Time[j]? = some date ∧ wr.Daily.TempMax[j]? = some hi ∧
          wr.Daily.TempMin[j]? = some lo ∧ wr.Daily.WeatherCode[j]? = some code ∧
          fs[j]? = some { Date := date, TempMax := hi, TempMin := lo,
                          Condition := weatherCodeToCondition code }) := by
  intro k
  induction k with
  | zero =>
    intro i acc hk hi hacc
    have him : i = m := by omega
    refine ⟨acc, forecastLoop_stop wr days i acc (by omega), by omega, fun _ _ => rfl, ?_⟩
    intro j h1 h2
    omega
  | succ k ih =>
    intro i acc hk hi hacc
    have hlt : i < m := by omega
    have hlen : i < wr.Daily.Time.length := by omega
    have hdays : (i : Int) < days := by omega
    have hiA : i < wr.Daily.TempMax.length := by omega
    have hiB : i < wr.Daily.TempMin.length := by omega
    have hiC : i < wr.Daily.WeatherCode.length := by omega
    have h1 : wr.Daily.Time[i]? = some wr.Daily.Time[i] := List.getElem?_eq_getElem hlen
    have h2 : wr.Daily.TempMax[i]? = some wr.Daily.TempMax[i] := List.getElem?_eq_getElem hiA
    have h3 : wr.Daily.TempMin[i]? = some wr.Daily.TempMin[i] := List.getElem?_eq_getElem hiB
    have h4 : wr.Daily.WeatherCode[i]? = some wr.Daily.WeatherCode[i] :=
      List.getElem?_eq_getElem hiC
    rw [forecastLoop_step wr days i acc _ _ _ _ hlen hdays h1 h2 h3 h4]
    obtain ⟨fs, hfs, hlenfs, hkeep, hfill⟩ :=
      ih (i + 1) _ (by omega) (by omega)
        (show (acc ++ [(⟨wr.Daily.Time[i], wr.Daily.TempMax[i], wr.Daily.TempMin[i],
          weatherCodeToCondition wr.Daily.WeatherCode[i]⟩ : DayForecast)]).length = i + 1
          by simp [hacc])
    rw [hfs]
    refine ⟨fs, rfl, hlenfs, ?_, ?_⟩
    · intro j hj
      rw [hkeep j (by omega), List.getElem?_append_left (by omega)]
    · intro j hij hjm
      rcases Nat.eq_or_lt_of_le hij with heq | hlt2
      · subst heq
        refine ⟨_, _, _, _, h1, h2, h3, h4, ?_⟩
        rw [hkeep i (by omega)]
        have hlast := List.getElem?_concat_length acc
          (⟨wr.Daily.Time[i], wr.Daily.TempMax[i], wr.Daily.TempMin[i],
            weatherCodeToCondition wr.Daily.WeatherCode[i]⟩ : DayForecast)
        rw [hacc] at hlast
        exact hlast
      · exact hfill j (by omega) hjm

/-- Loop invariant, failure: when some index `j` below both `len(time)` and `days`
is missing from one of the three other arrays, the loop started at any `i ≤ j`
panics. -/
theorem forecastLoop_none (wr : weatherResponse) (days : Int) (j : Nat)
    (hlen : j < wr.Daily.Time.length) (hdays : (j : Int) < days)
    (hbad : wr.Daily.TempMax.length ≤ j ∨ wr.Daily.TempMin.length ≤ j ∨
      wr.Daily.WeatherCode.length ≤ j) :
    ∀ (k i : Nat) (acc : List DayForecast), k = j - i → i ≤ j →
      forecastLoop wr days i acc = none := by
  intro k
  induction k with
  | zero =>
    intro i acc hk hi
    have hij : i = j := by omega
    subst hij
    exact forecastLoop_panic wr days i acc hlen hdays hbad
  | succ k ih =>
    intro i acc hk hi
    by_cases hgood : wr.Daily.TempMax.length ≤ i ∨ wr.Daily.TempMin.length ≤ i ∨
        wr.Daily.WeatherCode.length ≤ i
    · exact forecastLoop_panic wr days i acc (by omega) (by omega) hgood
    · have hlen2 : i < wr.Daily.Time.length := by omega
      rw [forecastLoop_step wr days i acc _ _ _ _ hlen2 (by omega)
        (List.getElem?_eq_getElem hlen2)
        (List.getElem?_eq_getElem (l := wr.Daily.TempMax) (by omega))
        (List.getElem?_eq_getElem (l := wr.Daily.TempMin) (by omega))
        (List.getElem?_eq_getElem (l := wr.Daily.WeatherCode) (by omega))]
      exact ih (i + 1) _ (by omega) (by omega)

/-- The loop of `Fetch` returns (does not panic) exactly when each of the three
other arrays is at least `min(len(time), days)` long. -/
theorem forecastLoop_isSome_iff (wr : weatherResponse) (days : Int) :
    (forecastLoop wr days 0 []).isSome = true ↔
      (min (wr.Daily.Time.length : Int) days ≤ wr.Daily.TempMax.length ∧
       min (wr.Daily.Time.length : Int) days ≤ wr.Daily.TempMin.length ∧
       min (wr.Daily.Time.length : Int) days ≤ wr.Daily.WeatherCode.length) := by
  constructor
  · intro h
    by_contra hcon
    have hex : ∃ j, j < wr.Daily.Time.length ∧ (j : Int) < days ∧
        (wr.Daily.TempMax.length ≤ j ∨ wr.Daily.TempMin.length ≤ j ∨
          wr.Daily.WeatherCode.length ≤ j) := by
      by_cases hA : min (wr.Daily.Time.length : Int) days ≤ wr.Daily.TempMax.length
      · by_cases hB : min (wr.Daily.Time.length : Int) days ≤ wr.Daily.TempMin.length
        · have hC : ¬ min (wr.Daily.Time.length : Int) days ≤ wr.Daily.WeatherCode.length :=
            fun hC => hcon ⟨hA, hB, hC⟩
          exact ⟨wr.Daily.WeatherCode.length, by omega, by omega, Or.inr (Or.inr (le_refl _))⟩
        · exact ⟨wr.Daily.TempMin.length, by omega, by omega, Or.inr (Or.inl (le_refl _))⟩
      · exact ⟨wr.Daily.TempMax.length, by omega, by omega, Or.inl (le_refl _)⟩
    obtain ⟨j, hj1, hj2, hj3⟩ := hex
    rw [forecastLoop_none wr days j hj1 hj2 hj3 j 0 [] rfl (Nat.zero_le _)] at h
    exact absurd h (by decide)
  · rintro ⟨hA, hB, hC⟩
    obtain ⟨fs, hfs, -⟩ :=
      forecastLoop_ok wr days (min wr.Daily.Time.length days.toNat) rfl
        (by omega) (by omega) (by omega) _ 0 [] rfl (Nat.zero_le _) rfl
    rw [hfs]
    rfl

/-- What `Fetch` returns once both requests have succeeded: the geocoder has a
first result, the forecast endpoint answers 200 with a body that decodes to
`wr`. -/
theorem Fetch_of_responses (L : Lib) (location units : String) (days : Int)
    (t : List Event) (lat lon : Float64) (resolvedName : String) (wr : weatherResponse)
    (hgeo : geocode L location = (t, Except.ok (lat, lon, resolvedName)))
    (hget : L.getWeather (apiURL L lat lon (if units = "imperial" then "fahrenheit" else "celsius")
      (if units = "imperial" then "mph" else "kmh") days)
      = Except.ok { StatusCode := 200, Body := Except.ok wr }) :
    (Fetch L location days units).2 =
      match forecastLoop wr days 0 [] with
      | none => Outcome.panic
      | some forecasts =>
        Outcome.value
          { Location := resolvedName
            Temperature := wr.Current.Temperature
            Units := units
            Condition := weatherCodeToCondition wr.Current.WeatherCode
            Humidity := wr.Current.RelativeHumidity
            WindSpeed := wr.Current.WindSpeed
            Forecasts := forecasts } := by
  unfold Fetch
  rw [hgeo]
  simp only [hget]
  simp

/-- C1: for every integer code, `weatherCodeToCondition` follows the boundary
table: 0 is "Clear sky"; 1..3 and every negative code are "Partly cloudy";
4..49 "Foggy"; 50..59 "Drizzle"; 60..69 "Rain"; 70..79 "Snow"; 80..84
"Rain showers"; 85..86 "Snow showers"; 87..99 "Thunderstorm"; and the label is
"Unknown" exactly when the code is at least 100. -/
theorem weatherCodeToCondition_table (code : Int) :
    (code = 0 → weatherCodeToCondition code = "Clear sky") ∧
    ((1 ≤ code ∧ code ≤ 3) ∨ code < 0 → weatherCodeToCondition code = "Partly cloudy") ∧
    (4 ≤ code ∧ code ≤ 49 → weatherCodeToCondition code = "Foggy") ∧
    (50 ≤ code ∧ code ≤ 59 → weatherCodeToCondition code = "Drizzle") ∧
    (60 ≤ code ∧ code ≤ 69 → weatherCodeToCondition code = "Rain") ∧
    (70 ≤ code ∧ code ≤ 79 → weatherCodeToCondition code = "Snow") ∧
    (80 ≤ code ∧ code ≤ 84 → weatherCodeToCondition code = "Rain showers") ∧
    (85 ≤ code ∧ code ≤ 86 → weatherCodeToCondition code = "Snow showers") ∧
    (87 ≤ code ∧ code ≤ 99 → weatherCodeToCondition code = "Thunderstorm") ∧
    (weatherCodeToCondition code = "Unknown" ↔ 100 ≤ code) := by
  unfold weatherCodeToCondition
  refine ⟨?_, ?_, ?_, ?_, ?_, ?_, ?_, ?_, ?_, ?_⟩
  · intro h; rw [if_pos h]
  · intro h; rw [if_neg (by omega), if_pos (by omega)]
  · intro h; rw [if_neg (by omega), if_neg (by omega), if_pos (by omega)]
  · intro h; rw [if_neg (by omega), if_neg (by omega), if_neg (by omega), if_pos (by omega)]
  · intro h
    rw [if_neg (by omega), if_neg (by omega), if_neg (by omega), if_neg (by omega),
      if_pos (by omega)]
  · intro h
    rw [if_neg (by omega), if_neg (by omega), if_neg (by omega), if_neg (by omega),
      if_neg (by omega), if_pos (by omega)]
  · intro h
    rw [if_neg (by omega), if_neg (by omega), if_neg (by omega), if_neg (by omega),
      if_neg (by omega), if_neg (by omega), if_pos (by omega)]
  · intro h
    rw [if_neg (by omega), if_neg (by omega), if_neg (by omega), if_neg (by omega),
      if_neg (by omega), if_neg (by omega), if_neg (by omega), if_pos (by omega)]
  · intro h
    rw [if_neg (by omega), if_neg (by omega), if_neg (by omega), if_neg (by omega),
      if_neg (by omega), if_neg (by omega), if_neg (by omega), if_neg (by omega),
      if_pos (by omega)]
  · constructor
    · intro h
      by_contra hlt
      by_cases h0 : code = 0
      · rw [if_pos h0] at h; exact absurd h (by decide)
      rw [if_neg h0] at h
      by_cases h1 : code ≤ 3
      · rw [if_pos h1] at h; exact absurd h (by decide)
      rw [if_neg h1] at h
      by_cases h2 : code ≤ 49
      · rw [if_pos h2] at h; exact absurd h (by decide)
      rw [if_neg h2] at h
      by_cases h3 : code ≤ 59
      · rw [if_pos h3] at h; exact absurd h (by decide)
      rw [if_neg h3] at h
      by_cases h4 : code ≤ 69
      · rw [if_pos h4] at h; exact absurd h (by decide)
      rw [if_neg h4] at h
      by_cases h5 : code ≤ 79
      · rw [if_pos h5] at h; exact absurd h (by decide)
      rw [if_neg h5] at h
      by_cases h6 : code ≤ 84
      · rw [if_pos h6] at h; exact absurd h (by decide)
      rw [if_neg h6] at h
      by_cases h7 : code ≤ 86
      · rw [if_pos h7] at h; exact absurd h (by decide)
      rw [if_neg h7] at h
      by_cases h8 : code ≤ 99
      · rw [if_pos h8] at h; exact absurd h (by decide)
      omega
    · intro h
      rw [if_neg (by omega), if_neg (by omega), if_neg (by omega), if_neg (by omega),
        if_neg (by omega), if_neg (by omega), if_neg (by omega), if_neg (by omega),
        if_neg (by omega)]

/-- C1, the listed inputs: the table at 0, 3, 45, 61, 95, 150 and -1. -/
theorem weatherCodeToCondition_table_witness :
    weatherCodeToCondition 0 = "Clear sky" ∧ weatherCodeToCondition 3 = "Partly cloudy" ∧
    weatherCodeToCondition 45 = "Foggy" ∧ weatherCodeToCondition 61 = "Rain" ∧
    weatherCodeToCondition 95 = "Thunderstorm" ∧ weatherCodeToCondition 150 = "Unknown" ∧
    weatherCodeToCondition (-1) = "Partly cloudy" :=
  ⟨(weatherCodeToCondition_table 0).1 rfl,
   (weatherCodeToCondition_table 3).2.1 (by decide),
   (weatherCodeToCondition_table 45).2.2.1 (by decide),
   (weatherCodeToCondition_table 61).2.2.2.2.1 (by decide),
   (weatherCodeToCondition_table 95).2.2.2.2.2.2.2.2.1 (by decide),
   (weatherCodeToCondition_table 150).2.2.2.2.2.2.2.2.2.2 (by decide),
   (weatherCodeToCondition_table (-1)).2.1 (by decide)⟩

/-- C2: when the geocoder has a result and the forecast endpoint answers 200 with
a body whose four daily arrays have the same length `n`, `Fetch` returns a
weather record whose forecast sequence has exactly `min(n, days)` entries, and
entry `i` is `(time[i], tempMax[i], tempMin[i], weatherCodeToCondition(code[i]))`:
the first `min(n, days)` days in provider order.  (A day count below zero
counts as zero.) -/
theorem Fetch_forecasts_first_days (L : Lib) (location units : String) (days : Int)
    (t : List Event) (lat lon : Float64) (resolvedName : String) (wr : weatherResponse)
    (hgeo : geocode L location = (t, Except.ok (lat, lon, resolvedName)))
    (hget : L.getWeather (apiURL L lat lon (if units = "imperial" then "fahrenheit" else "celsius")
      (if units = "imperial" then "mph" else "kmh") days)
      = Except.ok { StatusCode := 200, Body := Except.ok wr })
    (hmax : wr.Daily.TempMax.length = wr.Daily.Time.length)
    (hmin : wr.Daily.TempMin.length = wr.Daily.Time.length)
    (hcode : wr.Daily.WeatherCode.length = wr.Daily.Time.length) :
    ∃ w, (Fetch L location days units).2 = Outcome.value w ∧
      w.Forecasts.length = min wr.Daily.Time.length days.toNat ∧
      (0 ≤ days → (w.Forecasts.length : Int) = min (wr.Daily.Time.length : Int) days) ∧
      ∀ i, i < min wr.Daily.Time.length days.toNat →
        ∃ date hi lo code,
          wr.Daily.Time[i]? = some date ∧ wr.Daily.TempMax[i]? = some hi ∧
          wr.Daily.TempMin[i]? = some lo ∧ wr.Daily.WeatherCode[i]? = some code ∧
          w.Forecasts[i]? = some { Date := date, TempMax := hi, TempMin := lo,
                                   Condition := weatherCodeToCondition code } := by
  obtain ⟨fs, hfs, hlen, -, hfill⟩ :=
    forecastLoop_ok wr days (min wr.Daily.Time.length days.toNat) rfl
      (by omega) (by omega) (by omega) _ 0 [] rfl (Nat.zero_le _) rfl
  refine ⟨{ Location := resolvedName, Temperature := wr.Current.Temperature, Units := units,
            Condition := weatherCodeToCondition wr.Current.WeatherCode,
            Humidity := wr.Current.RelativeHumidity, WindSpeed := wr.Current.WindSpeed,
            Forecasts := fs }, ?_, ?_, ?_, ?_⟩
  · rw [Fetch_of_responses L location units days t lat lon resolvedName wr hgeo hget, hfs]
  · exact hlen
  · intro hd
    show ((fs.length : Nat) : Int) = _
    rw [hlen]
    omega
  · intro i hi
    exact hfill i (Nat.zero_le _) hi

/-- C2, the listed input: five daily entries and `days = 2` give exactly the first
two days. -/
theorem Fetch_forecasts_first_days_witness :
    (Fetch examples.libOK "Paris" 2 "metric").2 =
      Outcome.value
        { Location := "Paris", Temperature := ⟨20⟩, Units := "metric", Condition := "Clear sky",
          Humidity := 50, WindSpeed := ⟨10⟩,
          Forecasts :=
            [{ Date := "2024-01-01", TempMax := ⟨11⟩, TempMin := ⟨1⟩, Condition := "Clear sky" },
             { Date := "2024-01-02", TempMax := ⟨12⟩, TempMin := ⟨2⟩,
               Condition := "Partly cloudy" }] } ∧
    ∃ w, (Fetch examples.libOK "Paris" 2 "metric").2 = Outcome.value w ∧
      w.Forecasts.length = min examples.fiveDays.Daily.Time.length (2 : Int).toNat := by
  constructor
  · simp [Fetch, geocode, examples.libOK, examples.parisGeo, examples.fiveDays, forecastLoop,
      weatherCodeToCondition]
  · obtain ⟨w, hw, hlen, -⟩ :=
      Fetch_forecasts_first_days examples.libOK "Paris" "metric" 2 _ ⟨48⟩ ⟨2⟩ "Paris"
        examples.fiveDays rfl rfl rfl rfl rfl
    exact ⟨w, hw, hlen⟩

/-- The forecast boundary does check the status: when the geocoder has a result
and the forecast endpoint answers with a status other than 200, `Fetch` fails with
the status error carrying exactly that status code, whatever the body holds. -/
theorem Fetch_forecast_status (L : Lib) (location units : String) (days : Int)
    (t : List Event) (lat lon : Float64) (resolvedName : String)
    (resp : Response weatherResponse)
    (hgeo : geocode L location = (t, Except.ok (lat, lon, resolvedName)))
    (hget : L.getWeather (apiURL L lat lon (if units = "imperial" then "fahrenheit" else "celsius")
      (if units = "imperial" then "mph" else "kmh") days) = Except.ok resp)
    (hstatus : resp.StatusCode ≠ 200) :
    (Fetch L location days units).2 = Outcome.error (FetchError.weatherStatus resp.StatusCode) := by
  unfold Fetch
  rw [hgeo]
  simp only [hget]
  simp [hstatus]

/-- C3 (the code at the failing input): the geocoding boundary never reads the
status code.  A 503 answer whose body decodes without results is reported as
"location not found", and a 500 answer whose body decodes to a result lets `Fetch`
go on and return a weather record; in neither case does the error carry the
status code. -/
theorem Fetch_geocode_status_unchecked :
    (Fetch examples.libGeo503 "Paris" 1 "metric").2 =
      Outcome.error (FetchError.findLocation "Paris" FetchError.locationNotFound) ∧
    (∃ w, (Fetch examples.libGeo500 "Paris" 1 "metric").2 = Outcome.value w) := by
  constructor
  · simp [Fetch, geocode, examples.libGeo503]
  · simp [Fetch, geocode, examples.libGeo500, examples.parisGeo, examples.fiveDays, forecastLoop]

/-- C10: the forecast loop of `Fetch` returns without an out-of-range index exactly
when the max-temp, min-temp and weather-code arrays are each at least
`min(len(time), days)` long, in particular when all four arrays have the same
length; and there is a response whose time array is longer than its max-temp
array on which the loop, and `Fetch` with it, panics. -/
theorem forecastLoop_index_safety :
    (∀ (wr : weatherResponse) (days : Int),
      (∃ fs, forecastLoop wr days 0 [] = some fs) ↔
        (min (wr.Daily.Time.length : Int) days ≤ wr.Daily.TempMax.length ∧
         min (wr.Daily.Time.length : Int) days ≤ wr.Daily.TempMin.length ∧
         min (wr.Daily.Time.length : Int) days ≤ wr.Daily.WeatherCode.length)) ∧
    (∀ (wr : weatherResponse) (days : Int),
      wr.Daily.TempMax.length = wr.Daily.Time.length →
      wr.Daily.TempMin.length = wr.Daily.Time.length →
      wr.Daily.WeatherCode.length = wr.Daily.Time.length →
      ∃ fs, forecastLoop wr days 0 [] = some fs) ∧
    (examples.shortMax.Daily.TempMax.length < examples.shortMax.Daily.Time.length ∧
      forecastLoop examples.shortMax 3 0 [] = none ∧
      (Fetch examples.libShortMax "Paris" 3 "metric").2 = Outcome.panic) := by
  have key : ∀ (wr : weatherResponse) (days : Int),
      (∃ fs, forecastLoop wr days 0 [] = some fs) ↔
        (min (wr.Daily.Time.length : Int) days ≤ wr.Daily.TempMax.length ∧
         min (wr.Daily.Time.length : Int) days ≤ wr.Daily.TempMin.length ∧
         min (wr.Daily.Time.length : Int) days ≤ wr.Daily.WeatherCode.length) := by
    intro wr days
    rw [← forecastLoop_isSome_iff, Option.isSome_iff_exists]
  have hnone : forecastLoop examples.shortMax 3 0 [] = none :=
    forecastLoop_none examples.shortMax 3 2 (by decide) (by decide) (Or.inl (by decide)) 2 0 []
      rfl (by decide)
  refine ⟨key, ?_, by decide, hnone, ?_⟩
  · intro wr days h1 h2 h3
    exact (key wr days).2 ⟨by omega, by omega, by omega⟩
  · rw [Fetch_of_responses examples.libShortMax "Paris" "metric" 3 _ ⟨48⟩ ⟨2⟩ "Paris"
      examples.shortMax rfl rfl, hnone]

end fetcher

namespace weather

/-- C8: for every context and every fetcher configuration, `Fetch` on the empty
location returns the empty-location error and no weather record, and the trace
of effects is empty: no request was built and none was sent. -/
theorem Fetch_empty_location (f : Fetcher) (ctx : Context) :
    Fetcher.Fetch f ctx "" = ([], Except.error Error.emptyLocation) := by
  simp [Fetcher.Fetch]

/-- C6: `parseResponse` fails if and only if the current-conditions array is
empty, the error is then the no-data error; with at least one element it
succeeds whatever the other fields hold. -/
theorem parseResponse_error_iff (resp : wttrResponse) (fallbackLocation : String) :
    ((∃ e, parseResponse resp fallbackLocation = Except.error e) ↔ resp.CurrentCondition = []) ∧
    ((∃ w, parseResponse resp fallbackLocation = Except.ok w) ↔
      0 < resp.CurrentCondition.length) ∧
    (∀ e, parseResponse resp fallbackLocation = Except.error e → e = Error.noCurrentConditions) := by
  unfold parseResponse
  cases h : resp.CurrentCondition with
  | nil => simp
  | cons cc rest => simp

/-- C7: the `Location` of a successfully parsed response is the value of the first
`areaName` of the first `nearest_area` element when both lists are non-empty, and
the original input text otherwise. -/
theorem parseResponse_location (resp : wttrResponse) (fallbackLocation : String) (w : Weather)
    (hok : parseResponse resp fallbackLocation = Except.ok w) :
    (∀ area name, resp.NearestArea.head? = some area → area.AreaName.head? = some name →
        w.Location = name.Value) ∧
    ((resp.NearestArea = [] ∨ ∃ area, resp.NearestArea.head? = some area ∧ area.AreaName = []) →
        w.Location = fallbackLocation) := by
  unfold parseResponse at hok
  cases hcc : resp.CurrentCondition with
  | nil => simp [hcc] at hok
  | cons cc rest =>
    simp only [hcc] at hok
    injection hok with hw
    subst hw
    constructor
    · intro area name ha hn
      cases hna : resp.NearestArea with
      | nil => simp [hna] at ha
      | cons a as =>
        simp [hna] at ha
        subst ha
        cases han : a.AreaName with
        | nil => simp [han] at hn
        | cons n ns =>
          simp [han] at hn
          subst hn
          simp [hna, han]
    · rintro (h | ⟨area, ha, hn⟩)
      · simp [h]
      · cases hna : resp.NearestArea with
        | nil => simp
        | cons a as =>
          simp [hna] at ha
          subst ha
          simp [hna, hn]

/-- C7 at a concrete input: the provider resolves the query "paris" to the area
"Paris", and that name is the `Location` of the result. -/
theorem parseResponse_location_witness :
    parseResponse examples.wttrParis "paris" =
      Except.ok { Location := "Paris", TempC := parseInt "20", TempF := parseInt "68",
                  Conditions := "Sunny", Humidity := parseInt "40", WindKmph := parseInt "10",
                  WindMph := parseInt "6", WindDir := "N" } ∧
    (({ Location := "Paris", TempC := parseInt "20", TempF := parseInt "68",
        Conditions := "Sunny", Humidity := parseInt "40", WindKmph := parseInt "10",
        WindMph := parseInt "6", WindDir := "N" } : Weather).Location = "Paris") :=
  ⟨rfl, (parseResponse_location examples.wttrParis "paris" _ rfl).1 _ _ rfl rfl⟩

/-- What `parseResponse` returns on a response that has a first current-conditions
element: it succeeds, and every numeric field is `parseInt` of its string. -/
theorem parseResponse_cons (cc : currentCondition) (rest : List currentCondition)
    (areas : List nearestArea) (fallbackLocation : String) :
    ∃ w, parseResponse { CurrentCondition := cc :: rest, NearestArea := areas } fallbackLocation
        = Except.ok w ∧
      w.TempC = parseInt cc.TempC ∧ w.TempF = parseInt cc.TempF ∧
      w.Humidity = parseInt cc.Humidity ∧ w.WindKmph = parseInt cc.WindspeedKmph ∧
      w.WindMph = parseInt cc.WindspeedMiles :=
  ⟨_, rfl, rfl, rfl, rfl, rfl, rfl⟩

/-- Whenever `Sscanf` with `%d` returns an error on `s`, `parseInt s` is 0, and
`parseResponse` on a response with a first current-conditions element succeeds
with every numeric field whose string is `s` at 0. -/
theorem parseInt_zero_of_scan_error (s : String) (h : fmt.SscanfInt s = none) :
    parseInt s = 0 ∧
    ∀ (cc : currentCondition) (rest : List currentCondition) (areas : List nearestArea)
      (fallbackLocation : String),
      ∃ w, parseResponse { CurrentCondition := cc :: rest, NearestArea := areas } fallbackLocation
          = Except.ok w ∧
        (cc.TempC = s → w.TempC = 0) ∧ (cc.TempF = s → w.TempF = 0) ∧
        (cc.Humidity = s → w.Humidity = 0) ∧ (cc.WindspeedKmph = s → w.WindKmph = 0) ∧
        (cc.WindspeedMiles = s → w.WindMph = 0) := by
  have h0 : parseInt s = 0 := by
    unfold parseInt
    rw [h]
  refine ⟨h0, ?_⟩
  intro cc rest areas fallbackLocation
  obtain ⟨w, hw, h1, h2, h3, h4, h5⟩ := parseResponse_cons cc rest areas fallbackLocation
  refine ⟨w, hw, ?_, ?_, ?_, ?_, ?_⟩
  · intro e; rw [h1, e, h0]
  · intro e; rw [h2, e, h0]
  · intro e; rw [h3, e, h0]
  · intro e; rw [h4, e, h0]
  · intro e; rw [h5, e, h0]

/-- C4, as worded, fails: the text "12abc" does not parse as an integer (it is not
an optional sign followed by digits only), yet `parseInt "12abc"` is 12, not 0,
and a response whose `temp_C` is "12abc" parses with `TempC = 12`; likewise
"3.5" is read as 3.  The scan stores the leading numeral and leaves the rest
unread. -/
theorem parseInt_leading_numeral_counterexample :
    parsesAsInteger "12abc" = false ∧ parseInt "12abc" = 12 ∧ parseInt "12abc" ≠ 0 ∧
    parsesAsInteger "3.5" = false ∧ parseInt "3.5" = 3 ∧
    parseResponse
        { CurrentCondition :=
            [{ TempC := "12abc", TempF := "68", Humidity := "40", WindspeedKmph := "10",
               WindspeedMiles := "6", WindDir16Point := "N", WeatherDesc := [] }]
          NearestArea := [] } "Paris" =
      Except.ok { Location := "Paris", TempC := 12, TempF := 68, Conditions := "", Humidity := 40,
                  WindKmph := 10, WindMph := 6, WindDir := "N" } := by
  refine ⟨by decide, by decide, by decide, by decide, by decide, rfl⟩

/-- C4, amended: for every string `s` that does not start with an integer numeral
(after optional white space without a newline: an optional sign and at least one
decimal digit), `parseInt s` is 0 and no error is propagated: `parseResponse` on
a response with a non-empty current-conditions array succeeds, and each numeric
field whose string is `s` is 0 in the result. -/
theorem parseInt_zero_of_no_leading_integer (s : String) (h : ¬ fmt.startsWithInteger s) :
    parseInt s = 0 ∧
    ∀ (cc : currentCondition) (rest : List currentCondition) (areas : List nearestArea)
      (fallbackLocation : String),
      ∃ w, parseResponse { CurrentCondition := cc :: rest, NearestArea := areas } fallbackLocation
          = Except.ok w ∧
        (cc.TempC = s → w.TempC = 0) ∧ (cc.TempF = s → w.TempF = 0) ∧
        (cc.Humidity = s → w.Humidity = 0) ∧ (cc.WindspeedKmph = s → w.WindKmph = 0) ∧
        (cc.WindspeedMiles = s → w.WindMph = 0) :=
  parseInt_zero_of_scan_error s (fmt.SscanfInt_none_of_not_startsWithInteger s h)

/-- C4, amended, at a concrete input: "N/A" starts with the letter N, so it does
not start with an integer numeral; `parseInt "N/A"` is 0 and a response whose
`temp_C` is "N/A" parses with `TempC = 0`. -/
theorem parseInt_zero_of_no_leading_integer_witness :
    ¬ fmt.startsWithInteger "N/A" ∧ parseInt "N/A" = 0 ∧
    ∃ w, parseResponse
        { CurrentCondition :=
            [{ TempC := "N/A", TempF := "68", Humidity := "40", WindspeedKmph := "10",
               WindspeedMiles := "6", WindDir16Point := "N", WeatherDesc := [] }]
          NearestArea := [] } "Paris" = Except.ok w ∧ w.TempC = 0 :=
  have hno : ¬ fmt.startsWithInteger "N/A" :=
    fmt.not_startsWithInteger_of_head "N/A" 'N' ['/', 'A'] rfl (by decide) (by decide)
      (by decide) (by decide)
  have hthm := parseInt_zero_of_no_leading_integer "N/A" hno
  ⟨hno, hthm.1,
    (hthm.2 { TempC := "N/A", TempF := "68", Humidity := "40", WindspeedKmph := "10",
              WindspeedMiles := "6", WindDir16Point := "N", WeatherDesc := [] } [] [] "Paris").elim
      fun w hw => ⟨w, hw.1, hw.2.1 rfl⟩⟩

end weather

namespace display

/-- A character below 128 takes one byte in UTF-8. -/
theorem utf8Size_of_ascii (c : Char) (h : c.toNat < 128) : c.utf8Size = 1 := by
  unfold Char.utf8Size
  have h1 : c.val ≤ UInt32.ofNatCore 0x7F (by decide) := by
    show c.val.toNat ≤ 127
    unfold Char.toNat at h
    omega
  simp only [h1, if_true]

/-- The byte length of a run of ASCII characters is its number of characters. -/
theorem utf8ByteSize_go_ascii (l : List Char) (h : ∀ c ∈ l, c.toNat < 128) :
    String.utf8ByteSize.go l = l.length := by
  induction l with
  | nil => rfl
  | cons c cs ih =>
    show String.utf8ByteSize.go cs + c.utf8Size = cs.length + 1
    rw [ih (fun d hd => h d (List.mem_cons_of_mem _ hd)),
      utf8Size_of_ascii c (h c (List.mem_cons_self _ _))]

/-- Go `len` of an ASCII string is its number of characters. -/
theorem utf8ByteSize_ascii (s : String) (h : ∀ c ∈ s.data, c.toNat < 128) :
    s.utf8ByteSize = s.length := by
  cases s with
  | mk l => exact utf8ByteSize_go_ascii l h

/-- C9: for every weather result, the first three writes of `Print` are the blank
line, the title line "Weather for <Location>" and an underline line; the
underline consists only of dashes and its length is the length of the location
name (Go `len`, the byte length) plus 12, which for an ASCII name is its number
of characters plus 12. -/
theorem Print_underline (fmtF1 : Float64 → String) (weather : fetcher.Weather) :
    ∃ underline rest,
      Print fmtF1 weather =
        "\n" :: ("Weather for " ++ weather.Location ++ "\n") :: (underline ++ "\n") :: rest ∧
      underline.length = weather.Location.utf8ByteSize + 12 ∧
      (∀ c ∈ underline.data, c = '-') ∧
      ((∀ c ∈ weather.Location.data, c.toNat < 128) →
        underline.length = weather.Location.length + 12) := by
  have hlen : (String.mk (List.replicate (weather.Location.utf8ByteSize + 12) '-')).length
      = weather.Location.utf8ByteSize + 12 := by
    simp [String.length]
  refine ⟨String.mk (List.replicate (weather.Location.utf8ByteSize + 12) '-'), _, rfl, hlen,
    ?_, ?_⟩
  · intro c hc
    exact List.eq_of_mem_replicate hc
  · intro hascii
    rw [hlen, utf8ByteSize_ascii weather.Location hascii]

/-- C9, the listed input: for the location "Paris" the underline is 17 dashes. -/
theorem Print_underline_witness :
    (Print (fun _ => "20.0") examples.parisWeather)[1]? = some "Weather for Paris\n" ∧
    (Print (fun _ => "20.0") examples.parisWeather)[2]? = some "-----------------\n" ∧
    ("-----------------".length = "Paris".length + 12) := by
  refine ⟨by decide, by decide, by decide⟩

end display

namespace main

/-- Every call of `Fetch` sends at least the geocoding request. -/
theorem Fetch_trace_ne_nil (L : fetcher.Lib) (location : String) (days : Int) (units : String) :
    (fetcher.Fetch L location days units).1 ≠ [] := by
  unfold fetcher.Fetch
  rcases hg : fetcher.geocode L location with ⟨t, r⟩
  have ht : t ≠ [] := by
    have h1 : (fetcher.geocode L location).1 = t := by rw [hg]
    rw [← h1]
    simp [fetcher.geocode]
  cases r with
  | error e => simpa using ht
  | ok v =>
    obtain ⟨lat, lon, name⟩ := v
    simp

/-- C5: for every day count and units string, `run` reaches the fetcher only when
`1 ≤ days ≤ 3` and units is "metric" or "imperial".  For days outside the range it
returns the days error, for units outside the set a validation error, in both
cases with an empty trace: no request is sent and nothing is written.  Whenever
the trace is not empty both checks have passed, and with valid flags the trace
starts with the (non-empty) trace of `Fetch` on exactly these arguments. -/
theorem run_validates_first (L : fetcher.Lib) (fmtF1 : Float64 → String) (location : String)
    (days : Int) (units : String) :
    (¬ (1 ≤ days ∧ days ≤ 3) →
      run L fmtF1 location days units = ([], Outcome.error RunError.daysRange)) ∧
    (¬ (units = "metric" ∨ units = "imperial") →
      (run L fmtF1 location days units).1 = [] ∧
      ((run L fmtF1 location days units).2 = Outcome.error RunError.daysRange ∨
       (run L fmtF1 location days units).2 = Outcome.error RunError.unitsInvalid)) ∧
    ((run L fmtF1 location days units).1 ≠ [] →
      (1 ≤ days ∧ days ≤ 3) ∧ (units = "metric" ∨ units = "imperial")) ∧
    ((1 ≤ days ∧ days ≤ 3) ∧ (units = "metric" ∨ units = "imperial") →
      (fetcher.Fetch L location days units).1 ≠ [] ∧
      ∃ writes, (run L fmtF1 location days units).1 =
        (fetcher.Fetch L location days units).1 ++ writes) := by
  by_cases hd : days < 1 ∨ days > 3
  · have hrun : run L fmtF1 location days units = ([], Outcome.error RunError.daysRange) := by
      unfold run
      rw [if_pos hd]
    refine ⟨fun _ => hrun, fun _ => ?_, fun h => ?_, fun h => ?_⟩
    · rw [hrun]; exact ⟨rfl, Or.inl rfl⟩
    · rw [hrun] at h; exact absurd rfl h
    · omega
  · by_cases hu : units ≠ "metric" ∧ units ≠ "imperial"
    · have hrun : run L fmtF1 location days units = ([], Outcome.error RunError.unitsInvalid) := by
        unfold run
        rw [if_neg hd, if_pos hu]
      refine ⟨fun h => ?_, fun _ => ?_, fun h => ?_, fun h => ?_⟩
      · omega
      · rw [hrun]; exact ⟨rfl, Or.inr rfl⟩
      · rw [hrun] at h; exact absurd rfl h
      · rcases h.2 with h2 | h2
        · exact absurd h2 hu.1
        · exact absurd h2 hu.2
    · have hunits : units = "metric" ∨ units = "imperial" := by
        by_contra hcon
        exact hu ⟨fun e => hcon (Or.inl e), fun e => hcon (Or.inr e)⟩
      refine ⟨fun h => ?_, fun h => absurd hunits h, fun _ => ⟨by omega, hunits⟩,
        fun _ => ⟨Fetch_trace_ne_nil L location days units, ?_⟩⟩
      · omega
      · unfold run
        rw [if_neg hd, if_neg hu]
        rcases hF : fetcher.Fetch L location days units with ⟨t, r⟩
        cases r with
        | value w => exact ⟨_, rfl⟩
        | error e => exact ⟨[], by simp⟩
        | panic => exact ⟨[], by simp⟩

end main

end Gastown
